import Mathlib

/-!
# Verification of the `WalletStore` reactive state store

A shallow embedding of the Angular `WalletStore` (`wallet.store.ts`), the
state-management facade over an externally supplied Solana wallet adapter.

Modelling choices, stated once:

* The externally supplied adapter object is modelled by the `Adapter`
  structure. Its asynchronous methods (`connect`, `disconnect`,
  `sendTransaction`, the optional signers) are modelled by fields recording
  the outcome the external object would produce: `none` / `Except.ok` for a
  resolved promise, `some msg` / `Except.error msg` for a rejected one. An
  optional capability (`signTransaction` in adapter) is declared exactly when
  the corresponding `Option` field is `some`.
* The store is the `WalletStore` structure: the ngrx component-store state
  (`WalletState`, mirroring the TypeScript interface field by field), the
  value held by the `LocalStorageService` for the wallet name (`name`), the
  list of errors pushed onto the `_error` subject (`errors`, newest last),
  and the list of URLs passed to `window.open` (`openedUrls`).
* Each command (`selectWallet`, `connect`, `disconnect`, `sendTransaction`)
  is embedded as a pure function from the store to a result record holding
  the observable outcome delivered to the subscriber, the store after the
  command has fully settled, and booleans recording whether the adapter
  method was invoked and (for `connect`) whether `connecting` was ever
  patched to `true` during the call.
* The always-on reactive effects that the claims need (`onWalletChanged`)
  are embedded as functions on the store; the interleaving of effects and
  commands is studied separately with a labelled step relation (`Step`) over
  system configurations (`Sys`).
-/

namespace WalletAdapter

abbrev WalletName := String
abbrev PublicKey := String
abbrev Transaction := String
abbrev TransactionSignature := String

/-- The error taxonomy of the store: the dedicated error classes raised by
`connect` / `sendTransaction`, and adapter-surfaced runtime errors
(`adapterError` carries the rejection message of the external promise). -/
inductive WalletError where
  | walletNotSelected
  | walletNotReady
  | walletNotConnected
  | adapterError (message : String)
deriving DecidableEq, Repr

/-- Outcome of one of the external adapter object's asynchronous methods:
the promise resolves with a value, or rejects with a message. -/
inductive AdapterResult (α : Type) where
  | resolved (value : α)
  | rejected (message : String)
deriving DecidableEq, Repr

/-- The externally supplied wallet adapter object, reduced to the outcomes of
its methods as observed by the store.  `connectFails` / `disconnectFails` are
`some msg` when the corresponding promise rejects.  `readyResult` is the
boolean resolved by `adapter.ready()`.  A `some` signer field means the
adapter declares that capability (the `"signTransaction" in adapter` check);
its value is the outcome the adapter would produce, modelled independently of
the particular transaction/message passed in. -/
structure Adapter where
  publicKey : Option PublicKey
  connected : Bool
  readyResult : Bool
  connectFails : Option String
  disconnectFails : Option String
  sendTransactionResult : AdapterResult TransactionSignature
  signTransactionResult : Option (AdapterResult Transaction)
  signAllTransactionsResult : Option (AdapterResult (List Transaction))
  signMessageResult : Option (AdapterResult String)
deriving DecidableEq, Repr

/-- A wallet descriptor: name, install/info URL and its adapter. -/
structure Wallet where
  name : WalletName
  url : String
  adapter : Adapter
deriving DecidableEq, Repr

/-- The ngrx component-store state, field by field from the TypeScript
`WalletState` interface. -/
structure WalletState where
  wallets : List Wallet
  wallet : Option Wallet
  adapter : Option Adapter
  connecting : Bool
  disconnecting : Bool
  connected : Bool
  ready : Bool
  publicKey : Option PublicKey
  autoConnect : Bool
deriving DecidableEq, Repr

/-- The whole store: component-store state, the persisted wallet name held by
the `LocalStorageService`, the error notification channel (`_error` subject,
newest error last) and the URLs opened via `window.open`. -/
structure WalletStore where
  state : WalletState
  name : Option WalletName
  errors : List WalletError
  openedUrls : List String
deriving DecidableEq, Repr

/-- `patchState(initialState)`: the module-level `initialState` constant lists
exactly the fields `wallet`, `adapter`, `ready`, `connected`, `publicKey`;
`patchState` merges it into the current state, leaving every other field
untouched. -/
def applyInitialState (s : WalletState) : WalletState :=
  { s with
    wallet := none
    adapter := none
    ready := false
    connected := false
    publicKey := none }

/-- The `_walletsByName$` lookup: the TypeScript `reduce` assigns
`walletsByName[wallet.name] = wallet` in list order, so a later wallet with
the same name overwrites an earlier one; absent names yield `undefined`
(here `none`). -/
def walletsByName (wallets : List Wallet) (name : WalletName) : Option Wallet :=
  wallets.foldl (fun acc w => if w.name = name then some w else acc) none

/-- The body of the `onWalletChanged` effect for one `(name, walletsByName)`
emission: `const wallet = (name && walletsByName[name]) || null` — note a
`null` name, and also the empty string (falsy in TypeScript), short-circuit
to `null`.  With an adapter the state is patched from the adapter fields with
`ready := false` (the `setItem(name)` call rewrites the same persisted value,
leaving `name` unchanged); otherwise `patchState(initialState)`. -/
def resolvedWallet (wallets : List Wallet) (name : Option WalletName) : Option Wallet :=
  match name with
  | none => none
  | some n => if n = "" then none else walletsByName wallets n

/-- The state patch performed by the `onWalletChanged` body on the resolved
wallet (see `resolvedWallet`). -/
def resolveWalletState (s : WalletState) (name : Option WalletName) : WalletState :=
  match resolvedWallet s.wallets name with
  | some w =>
      { s with
        adapter := some w.adapter
        wallet := some w
        publicKey := w.adapter.publicKey
        connected := w.adapter.connected
        ready := false }
  | none => applyInitialState s

/-- The `onWalletChanged` effect applied to the store. -/
def WalletStore.onWalletChanged (st : WalletStore) : WalletStore :=
  { st with state := resolveWalletState st.state st.name }

/-- What the observable returned by `connect()` delivers: nothing (the guard
`filter` dropped the emission and the observable completed empty), an error,
or completion of the adapter connect. -/
inductive ConnectOutcome where
  | filtered
  | failed (e : WalletError)
  | succeeded
deriving DecidableEq, Repr

/-- Result of one settled `connect()` call.  `setConnectingFlag` records
whether `patchState((connecting := true))` was executed at any point during
the call. -/
structure ConnectResult where
  outcome : ConnectOutcome
  store : WalletStore
  invokedAdapterConnect : Bool
  setConnectingFlag : Bool
deriving DecidableEq, Repr

/-- `connect()`: snapshot the state (`first()`), drop the emission unless
`!connected && !connecting && !disconnecting`; fail with
`WalletNotSelectedError` (pushed to `_error`) when wallet or adapter is
absent; when not ready, clear the persisted name, open the wallet URL, push
and throw `WalletNotReadyError`; otherwise patch `connecting := true`, await
`adapter.connect()`, on rejection clear the persisted name and rethrow
(without pushing to `_error`), and in a `finalize` patch
`connecting := false`. -/
def WalletStore.connect (st : WalletStore) : ConnectResult :=
  if st.state.connected || st.state.connecting || st.state.disconnecting then
    { outcome := .filtered
      store := st
      invokedAdapterConnect := false
      setConnectingFlag := false }
  else
    match st.state.wallet, st.state.adapter with
    | some w, some a =>
        if st.state.ready = false then
          { outcome := .failed .walletNotReady
            store :=
              { st with
                name := none
                openedUrls := st.openedUrls ++ [w.url]
                errors := st.errors ++ [.walletNotReady] }
            invokedAdapterConnect := false
            setConnectingFlag := false }
        else
          match a.connectFails with
          | some msg =>
              { outcome := .failed (.adapterError msg)
                store :=
                  { st with
                    name := none
                    state := { st.state with connecting := false } }
                invokedAdapterConnect := true
                setConnectingFlag := true }
          | none =>
              { outcome := .succeeded
                store := { st with state := { st.state with connecting := false } }
                invokedAdapterConnect := true
                setConnectingFlag := true }
    | _, _ =>
        { outcome := .failed .walletNotSelected
          store := { st with errors := st.errors ++ [.walletNotSelected] }
          invokedAdapterConnect := false
          setConnectingFlag := false }

/-- What the observable returned by `disconnect()` delivers: nothing
(guard filtered), completion after clearing the name with no adapter,
completion of the adapter disconnect, or the propagated rejection. -/
inductive DisconnectOutcome where
  | filtered
  | clearedNoAdapter
  | completed
  | failed (e : WalletError)
deriving DecidableEq, Repr

/-- Result of one settled `disconnect()` call.  `setDisconnectingFlag`
records whether `patchState((disconnecting := true))` was executed at any
point during the call — the raise is externally observable through
`disconnecting$` while the adapter promise is pending. -/
structure DisconnectResult where
  outcome : DisconnectOutcome
  store : WalletStore
  invokedAdapterDisconnect : Bool
  setDisconnectingFlag : Bool
deriving DecidableEq, Repr

/-- `disconnect()`: snapshot, drop unless `!disconnecting`; with no adapter,
clear the persisted name and complete; otherwise patch
`disconnecting := true`, await `adapter.disconnect()`, and in a `finalize`
(run on success and on failure alike) clear the persisted name and patch
`disconnecting := false`; a rejection propagates to the subscriber. -/
def WalletStore.disconnect (st : WalletStore) : DisconnectResult :=
  if st.state.disconnecting then
    { outcome := .filtered
      store := st
      invokedAdapterDisconnect := false
      setDisconnectingFlag := false }
  else
    match st.state.adapter with
    | none =>
        { outcome := .clearedNoAdapter
          store := { st with name := none }
          invokedAdapterDisconnect := false
          setDisconnectingFlag := false }
    | some a =>
        match a.disconnectFails with
        | none =>
            { outcome := .completed
              store := { st with name := none, state := { st.state with disconnecting := false } }
              invokedAdapterDisconnect := true
              setDisconnectingFlag := true }
        | some msg =>
            { outcome := .failed (.adapterError msg)
              store := { st with name := none, state := { st.state with disconnecting := false } }
              invokedAdapterDisconnect := true
              setDisconnectingFlag := true }

/-- Result of one settled `selectWallet(newName)` emission. -/
structure SelectResult where
  store : WalletStore
  invokedAdapterDisconnect : Bool
deriving DecidableEq, Repr

/-- `selectWallet(newName)`: compare against the persisted name
(`withLatestFrom(this.name$)`) and drop the emission when equal; with no
adapter, persist `newName`; otherwise await `adapter.disconnect()` and map
its completion to `newName`, but `catchError(() => EMPTY)`: a rejected
disconnect replaces the inner observable by `EMPTY`, so the final
`tap(setItem(newName))` never runs and the persisted name is left unchanged. -/
def WalletStore.selectWallet (st : WalletStore) (newName : Option WalletName) : SelectResult :=
  if newName = st.name then
    { store := st, invokedAdapterDisconnect := false }
  else
    match st.state.adapter with
    | none => { store := { st with name := newName }, invokedAdapterDisconnect := false }
    | some a =>
        match a.disconnectFails with
        | none => { store := { st with name := newName }, invokedAdapterDisconnect := true }
        | some _ => { store := st, invokedAdapterDisconnect := true }

/-- What the observable returned by `sendTransaction` delivers. -/
inductive SendOutcome where
  | failed (e : WalletError)
  | succeeded (signature : TransactionSignature)
deriving DecidableEq, Repr

/-- Result of one settled `sendTransaction` call. -/
structure SendResult where
  outcome : SendOutcome
  store : WalletStore
  invokedAdapterSend : Bool
deriving DecidableEq, Repr

/-- `sendTransaction(transaction, connection, options)`: snapshot adapter and
connected; fail with `WalletNotSelectedError` (pushed to `_error`) with no
adapter; fail with `WalletNotConnectedError` (pushed to `_error`) when not
connected; otherwise delegate to `adapter.sendTransaction` — its rejection
propagates to the subscriber without a push to `_error`.  The transaction,
connection and options are passed through to the external adapter, whose
outcome the model holds in `sendTransactionResult`. -/
def WalletStore.sendTransaction (st : WalletStore) (_transaction : Transaction) : SendResult :=
  match st.state.adapter with
  | none =>
      { outcome := .failed .walletNotSelected
        store := { st with errors := st.errors ++ [.walletNotSelected] }
        invokedAdapterSend := false }
  | some a =>
      if st.state.connected = false then
        { outcome := .failed .walletNotConnected
          store := { st with errors := st.errors ++ [.walletNotConnected] }
          invokedAdapterSend := false }
      else
        match a.sendTransactionResult with
        | .rejected msg =>
            { outcome := .failed (.adapterError msg), store := st, invokedAdapterSend := true }
        | .resolved sig =>
            { outcome := .succeeded sig, store := st, invokedAdapterSend := true }

/-- Modelled from the spec: the `wallet.signer` module (imported by the store
but not among the provided sources) supplies the helpers
`signTransaction(adapter, connected, errorSubject)` that the store delegates
to when the adapter declares the capability.  Per the spec, the error
taxonomy includes "not connected" for operations requiring an active
connection, and adapter-surfaced errors are propagated; so the helper is
modelled as: when not connected the observable errors with
`WalletNotConnectedError`, otherwise it carries the external adapter's
outcome. -/
def Signer.delegate {α : Type} (connected : Bool) (r : AdapterResult α) :
    AdapterResult α ⊕ WalletError :=
  if connected = false then Sum.inr .walletNotConnected
  else Sum.inl r

/-- `signTransaction(transaction)`: read `(adapter, connected)` from the
current state synchronously; return `undefined` (here `none`) unless the
adapter is present and declares `signTransaction`; otherwise return the
delegated observable.  Returning the observable has no side effect. -/
def WalletStore.signTransaction (st : WalletStore) (_transaction : Transaction) :
    Option (AdapterResult Transaction ⊕ WalletError) :=
  match st.state.adapter with
  | none => none
  | some a =>
      match a.signTransactionResult with
      | none => none
      | some r => some (Signer.delegate st.state.connected r)

/-- `signAllTransactions(transactions)`: same shape as `signTransaction`. -/
def WalletStore.signAllTransactions (st : WalletStore) (_transactions : List Transaction) :
    Option (AdapterResult (List Transaction) ⊕ WalletError) :=
  match st.state.adapter with
  | none => none
  | some a =>
      match a.signAllTransactionsResult with
      | none => none
      | some r => some (Signer.delegate st.state.connected r)

/-- `signMessage(message)`: same shape as `signTransaction`. -/
def WalletStore.signMessage (st : WalletStore) (_message : String) :
    Option (AdapterResult String ⊕ WalletError) :=
  match st.state.adapter with
  | none => none
  | some a =>
      match a.signMessageResult with
      | none => none
      | some r => some (Signer.delegate st.state.connected r)

/-!
## Interleaving semantics

The commands and the always-on effects run on a single-threaded event loop,
but each asynchronous adapter call is a suspension point: other emissions are
processed between `patchState((connecting := true))` and the resolution of
`adapter.connect()`.  `Sys` is a system configuration: the component-store
state, the persisted name, and whether a `connect()` or `disconnect()` call
is suspended awaiting its adapter promise.  `Step` has one constructor per
atomic slice of the source: each records exactly the guard checked and the
`patchState` / `setItem` writes performed by that slice.
-/

/-- A system configuration: store state, persisted name, and the pending
asynchronous adapter calls of suspended `connect()` / `disconnect()`
commands. -/
structure Sys where
  state : WalletState
  name : Option WalletName
  pendingConnect : Bool
  pendingDisconnect : Bool
deriving DecidableEq, Repr

/-- The configuration after the constructor's `setState`: empty registry,
nothing selected, all flags `false` (with the default `autoConnect := false`
config), nothing persisted, nothing pending. -/
def initSys : Sys :=
  { state :=
      { wallets := []
        wallet := none
        adapter := none
        connecting := false
        disconnecting := false
        connected := false
        ready := false
        publicKey := none
        autoConnect := false }
    name := none
    pendingConnect := false
    pendingDisconnect := false }

/-- One atomic slice of the event loop.  The constructors mirror, slice by
slice, the effects and commands of the source:

* `setWallets` / `walletChanged` / `adapterReady`: the `setWallets`,
  `onWalletChanged` and `onAdapterChanged` effects (the latter patches
  `ready` with the boolean resolved by `adapter.ready()`).
* `selectNoAdapter` / `selectWithAdapter`: the persisting tap of
  `selectWallet` — reached with no adapter, or after the old adapter's
  disconnect resolved (a rejected disconnect emits nothing, hence no step).
* `connectStart` / `connectResolve`: `connect()` up to and including
  `patchState((connecting := true))`, and the resumption after
  `adapter.connect()` settles (`finalize` patches `connecting := false`; a
  rejection also clears the persisted name).
* `autoConnectStart`: the `autoConnect` effect passing its `filter`
  (`autoConnect && ready && !connecting && !connected` — it does not check
  `disconnecting`) and patching `connecting := true`.
* `connectEvent`: the `onConnect` handler copying `connected` / `publicKey`
  from the adapter when it emits `connect`; the external object mutates, so
  the values read at the event are parameters of the step.
* `disconnectStart` / `disconnectNoAdapter` / `disconnectResolve`:
  `disconnect()` — its `filter` checks only `!disconnecting`.
* `disconnectEvent`: the `onDisconnect` handler clearing the persisted name
  (outside page unload). -/
inductive Step : Sys → Sys → Prop where
  | setWallets (s : Sys) (ws : List Wallet) :
      Step s { s with state := { s.state with wallets := ws } }
  | walletChanged (s : Sys) :
      Step s { s with state := resolveWalletState s.state s.name }
  | adapterReady (s : Sys) (a : Adapter) :
      s.state.adapter = some a →
      Step s { s with state := { s.state with ready := a.readyResult } }
  | selectNoAdapter (s : Sys) (n : Option WalletName) :
      n ≠ s.name → s.state.adapter = none →
      Step s { s with name := n }
  | selectWithAdapter (s : Sys) (n : Option WalletName) (a : Adapter) :
      n ≠ s.name → s.state.adapter = some a → a.disconnectFails = none →
      Step s { s with name := n }
  | connectStart (s : Sys) (w : Wallet) (a : Adapter) :
      s.state.connected = false → s.state.connecting = false →
      s.state.disconnecting = false →
      s.state.wallet = some w → s.state.adapter = some a → s.state.ready = true →
      Step s { s with state := { s.state with connecting := true }, pendingConnect := true }
  | autoConnectStart (s : Sys) (a : Adapter) :
      s.state.autoConnect = true → s.state.adapter = some a → s.state.ready = true →
      s.state.connecting = false → s.state.connected = false →
      Step s { s with state := { s.state with connecting := true }, pendingConnect := true }
  | connectResolve (s : Sys) (ok : Bool) :
      s.pendingConnect = true →
      Step s
        { s with
          state := { s.state with connecting := false }
          pendingConnect := false
          name := if ok then s.name else none }
  | connectEvent (s : Sys) (a : Adapter) (c : Bool) (pk : Option PublicKey) :
      s.state.adapter = some a →
      Step s { s with state := { s.state with connected := c, publicKey := pk } }
  | disconnectStart (s : Sys) (a : Adapter) :
      s.state.disconnecting = false → s.state.adapter = some a →
      Step s { s with state := { s.state with disconnecting := true }, pendingDisconnect := true }
  | disconnectNoAdapter (s : Sys) :
      s.state.disconnecting = false → s.state.adapter = none →
      Step s { s with name := none }
  | disconnectResolve (s : Sys) :
      s.pendingDisconnect = true →
      Step s
        { s with
          state := { s.state with disconnecting := false }
          pendingDisconnect := false
          name := none }
  | disconnectEvent (s : Sys) (a : Adapter) :
      s.state.adapter = some a →
      Step s { s with name := none }

/-- A configuration the store can actually be in: reachable from the
constructor's configuration by event-loop slices. -/
def Reachable (s : Sys) : Prop :=
  Relation.ReflTransGen Step initSys s

/-!
## Concrete data

Sample adapters, wallets and store snapshots used to evaluate the
definitions on closed inputs.
-/

/-- A well-behaved adapter: ready, every promise resolves, declares
`signTransaction` and `signAllTransactions` but not `signMessage`. -/
def adapterA : Adapter :=
  { publicKey := none
    connected := false
    readyResult := true
    connectFails := none
    disconnectFails := none
    sendTransactionResult := .resolved "sig"
    signTransactionResult := some (.resolved "signed")
    signAllTransactionsResult := some (.resolved ["signed"])
    signMessageResult := none }

/-- An adapter whose `disconnect()` promise rejects. -/
def adapterDFail : Adapter :=
  { adapterA with disconnectFails := some "disconnect rejected" }

/-- An adapter whose `connect()` promise rejects. -/
def adapterCFail : Adapter :=
  { adapterA with connectFails := some "connect rejected" }

/-- The wallet named `A` wrapping `adapterA`. -/
def walletA : Wallet :=
  { name := "A", url := "https://a.example", adapter := adapterA }

/-- The wallet named `A` wrapping the connect-rejecting adapter. -/
def walletCFail : Wallet :=
  { name := "A", url := "https://a.example", adapter := adapterCFail }

/-- The empty component-store state (the constructor's `setState` with the
default config). -/
def baseState : WalletState :=
  { wallets := []
    wallet := none
    adapter := none
    connecting := false
    disconnecting := false
    connected := false
    ready := false
    publicKey := none
    autoConnect := false }

/-- Wallet `A` selected and persisted, but its adapter's disconnect rejects. -/
def c1Store : WalletStore :=
  { state :=
      { baseState with
        wallets := [walletA]
        wallet := some walletA
        adapter := some adapterDFail
        connected := true
        ready := true }
    name := some "A"
    errors := []
    openedUrls := [] }

/-- The same snapshot with the well-behaved adapter. -/
def c1OkStore : WalletStore :=
  { c1Store with state := { c1Store.state with adapter := some adapterA } }

/-- A persisted name that matches no registry entry: the resolution pipeline
has cleared wallet and adapter but the name is still persisted. -/
def c2Store : WalletStore :=
  { state := baseState, name := some "Ghost", errors := [], openedUrls := [] }

/-- Wallet `A` selected, ready, with the connect-rejecting adapter. -/
def c4Store : WalletStore :=
  { state :=
      { baseState with
        wallets := [walletCFail]
        wallet := some walletCFail
        adapter := some adapterCFail
        ready := true }
    name := some "A"
    errors := []
    openedUrls := [] }

/-- Wallet `A` selected and already connected, with `ready = false` (exactly
what `onWalletChanged` produces for an adapter that reports
`connected = true`). -/
def c5Store : WalletStore :=
  { state :=
      { baseState with
        wallets := [walletA]
        wallet := some walletA
        adapter := some adapterA
        connected := true
        ready := false }
    name := some "A"
    errors := []
    openedUrls := [] }

/-- The same snapshot, not connected. -/
def c5OkStore : WalletStore :=
  { c5Store with state := { c5Store.state with connected := false } }

/-- An adapter selected, not currently disconnecting. -/
def c6Store : WalletStore :=
  { state := { baseState with adapter := some adapterA, connected := true }
    name := some "A"
    errors := []
    openedUrls := [] }

/-- A store in the middle of a `connect()` call. -/
def c7Store : WalletStore :=
  { state := { baseState with wallet := some walletA, adapter := some adapterA, connecting := true, ready := true }
    name := some "A"
    errors := []
    openedUrls := [] }

/-- Registry holds only wallet `A` while the persisted name is `Ghost`. -/
def c8Store : WalletStore :=
  { state := { baseState with wallets := [walletA], connecting := true, autoConnect := true }
    name := some "Ghost"
    errors := []
    openedUrls := [] }

/-- Adapter `adapterA` selected and connected, for the signer methods. -/
def c9Store : WalletStore :=
  { state := { baseState with adapter := some adapterA, connected := true }
    name := some "A"
    errors := []
    openedUrls := [] }

/-!
## A concrete interleaving

The event-loop slices below drive the store from the constructor
configuration to one where a `connect()` call is suspended awaiting
`adapter.connect()` while a `disconnect()` call has already passed its guard:
the `connect` event has reported `connected = true`, `connecting` is still
`true`, and `disconnecting` has just been set.
-/

/-- After `setWallets([walletA])`. -/
def sys1 : Sys :=
  { initSys with state := { initSys.state with wallets := [walletA] } }

/-- After `selectWallet("A")` persisted the name (no adapter selected yet). -/
def sys2 : Sys :=
  { sys1 with name := some "A" }

/-- After `onWalletChanged` resolved wallet `A`. -/
def sys3 : Sys :=
  { sys2 with state := resolveWalletState sys2.state sys2.name }

/-- After `onAdapterChanged` patched `ready` with `adapter.ready()`. -/
def sys4 : Sys :=
  { sys3 with state := { sys3.state with ready := adapterA.readyResult } }

/-- After `connect()` passed its guard and patched `connecting := true`,
now suspended on `adapter.connect()`. -/
def sys5 : Sys :=
  { sys4 with state := { sys4.state with connecting := true }, pendingConnect := true }

/-- After the adapter emitted its `connect` event and `onConnect` copied
`connected = true` and the public key. -/
def sys6 : Sys :=
  { sys5 with state := { sys5.state with connected := true, publicKey := some "PK" } }

/-- After `disconnect()` passed its guard (it checks only `disconnecting`)
and patched `disconnecting := true`, with the `connect()` call still
suspended. -/
def sys7 : Sys :=
  { sys6 with state := { sys6.state with disconnecting := true }, pendingDisconnect := true }

/-!
## Helper lemmas
-/

/-- The `onWalletChanged` body never writes `connecting`. -/
theorem resolveWalletState_connecting (s : WalletState) (name : Option WalletName) :
    (resolveWalletState s name).connecting = s.connecting := by
  unfold resolveWalletState
  split <;> rfl

/-- The `onWalletChanged` body never writes `disconnecting`. -/
theorem resolveWalletState_disconnecting (s : WalletState) (name : Option WalletName) :
    (resolveWalletState s name).disconnecting = s.disconnecting := by
  unfold resolveWalletState
  split <;> rfl

/-- The `onWalletChanged` body never writes `wallets`. -/
theorem resolveWalletState_wallets (s : WalletState) (name : Option WalletName) :
    (resolveWalletState s name).wallets = s.wallets := by
  unfold resolveWalletState
  split <;> rfl

/-- The `onWalletChanged` body never writes `autoConnect`. -/
theorem resolveWalletState_autoConnect (s : WalletState) (name : Option WalletName) :
    (resolveWalletState s name).autoConnect = s.autoConnect := by
  unfold resolveWalletState
  split <;> rfl

/-- A `null` persisted name, and a persisted name absent from the registry
lookup, both resolve to no wallet. -/
theorem resolvedWallet_eq_none (wallets : List Wallet) (name : Option WalletName)
    (h : name = none ∨ ∃ n, name = some n ∧ walletsByName wallets n = none) :
    resolvedWallet wallets name = none := by
  rcases h with h | ⟨n, hn, hw⟩
  · rw [h]; rfl
  · rw [hn]
    unfold resolvedWallet
    by_cases he : n = ""
    · simp [he]
    · simp [he, hw]

/-!
## Claim C1
-/

/-- Counterexample to claim C1: in `c1Store` the persisted name is `A`, an
adapter is selected, and `selectWallet("B")` invokes its disconnect — but the
disconnect rejects, `catchError(() => EMPTY)` swallows the emission, and the
new name `B` is never persisted: the persisted name stays `A`. -/
theorem C1_counterexample :
    some "B" ≠ c1Store.name ∧
    c1Store.state.adapter = some adapterDFail ∧
    (c1Store.selectWallet (some "B")).invokedAdapterDisconnect = true ∧
    (c1Store.selectWallet (some "B")).store.name ≠ some "B" ∧
    (c1Store.selectWallet (some "B")).store.name = some "A" := by
  decide

/-- Claim C1 (amended): when `selectWallet(newName)` is given a name that
differs from the persisted one while an adapter is selected, it invokes the
adapter's disconnect; if that disconnect succeeds, `newName` is persisted,
but if it fails the failure is swallowed and the store — the persisted name
included — is left unchanged. -/
theorem C1_selectWallet_disconnects_then_persists
    (st : WalletStore) (newName : Option WalletName) (a : Adapter)
    (hne : newName ≠ st.name) (ha : st.state.adapter = some a) :
    (st.selectWallet newName).invokedAdapterDisconnect = true ∧
    (a.disconnectFails = none → (st.selectWallet newName).store.name = newName) ∧
    (∀ msg, a.disconnectFails = some msg → (st.selectWallet newName).store = st) := by
  unfold WalletStore.selectWallet
  rw [if_neg hne, ha]
  cases hd : a.disconnectFails <;> simp_all

/-- Evaluation of the amended claim C1 on `c1OkStore` (selected adapter with
a succeeding disconnect): selecting `B` invokes the disconnect and persists
`B`. -/
theorem C1_witness :
    (c1OkStore.selectWallet (some "B")).invokedAdapterDisconnect = true ∧
    (c1OkStore.selectWallet (some "B")).store.name = some "B" := by
  have h := C1_selectWallet_disconnects_then_persists c1OkStore (some "B") adapterA
    (by decide) (by decide)
  exact ⟨h.1, h.2.1 (by decide)⟩

/-!
## Claim C2
-/

/-- Counterexample to claim C2: in `c2Store` no wallet is selected but the
name `Ghost` is still persisted; `connect()` fails with
`WalletNotSelectedError` yet the persisted selection is not cleared. -/
theorem C2_counterexample :
    (c2Store.connect).outcome = .failed .walletNotSelected ∧
    (c2Store.connect).store.name = some "Ghost" := by
  decide

/-- Claim C2 (amended): after any `connect()` failure the `connecting` flag
is `false`; the persisted selection is cleared on the not-ready failure and
on a rejection of the adapter's connect, but it is left unchanged on the
not-selected failure. -/
theorem C2_connect_failure_flags
    (st : WalletStore) :
    ((st.connect).outcome = .failed .walletNotSelected →
        (st.connect).store.state.connecting = false ∧
        (st.connect).store.name = st.name) ∧
    ((st.connect).outcome = .failed .walletNotReady →
        (st.connect).store.state.connecting = false ∧
        (st.connect).store.name = none) ∧
    (∀ msg, (st.connect).outcome = .failed (.adapterError msg) →
        (st.connect).store.state.connecting = false ∧
        (st.connect).store.name = none) := by
  unfold WalletStore.connect
  split
  · simp
  next hguard =>
    simp only [Bool.or_eq_true, not_or] at hguard
    split
    · split
      · simp_all
      · split <;> simp_all
    · simp_all

/-- Evaluation of the amended claim C2 on `c2Store`: the not-selected
failure leaves `connecting = false` and the persisted name untouched. -/
theorem C2_witness :
    (c2Store.connect).store.state.connecting = false ∧
    (c2Store.connect).store.name = c2Store.name :=
  (C2_connect_failure_flags c2Store).1 (by decide)

/-!
## Claim C3
-/

/-- Counterexample to claim C3: the configuration `sys7` is reachable (set
the registry, persist `A`, resolve the wallet, mark it ready, pass the
`connect()` guard, receive the adapter's `connect` event, then pass the
`disconnect()` guard — which checks only `disconnecting`), and in it
`connecting`, `disconnecting` and `connected` are all `true` at once. -/
theorem C3_counterexample :
    Reachable sys7 ∧
    sys7.state.connecting = true ∧
    sys7.state.disconnecting = true ∧
    sys7.state.connected = true := by
  refine ⟨?_, by decide, by decide, by decide⟩
  have h1 : Step initSys sys1 := Step.setWallets initSys [walletA]
  have h2 : Step sys1 sys2 := Step.selectNoAdapter sys1 (some "A") (by decide) (by decide)
  have h3 : Step sys2 sys3 := Step.walletChanged sys2
  have h4 : Step sys3 sys4 := Step.adapterReady sys3 adapterA (by decide)
  have h5 : Step sys4 sys5 :=
    Step.connectStart sys4 walletA adapterA (by decide) (by decide) (by decide)
      (by decide) (by decide) (by decide)
  have h6 : Step sys5 sys6 := Step.connectEvent sys5 adapterA true (some "PK") (by decide)
  have h7 : Step sys6 sys7 := Step.disconnectStart sys6 adapterA (by decide) (by decide)
  exact Relation.ReflTransGen.head h1 (Relation.ReflTransGen.head h2
    (Relation.ReflTransGen.head h3 (Relation.ReflTransGen.head h4
      (Relation.ReflTransGen.head h5 (Relation.ReflTransGen.head h6
        (Relation.ReflTransGen.head h7 Relation.ReflTransGen.refl))))))

/-- Claim C3 (amended): what the guards do ensure is that every event-loop
slice raising `connecting` from `false` to `true` (the guarded body of
`connect()` and the `autoConnect` effect) starts from a configuration with
`connected = false`.  Mutual exclusion of `connecting` and `disconnecting`
does not hold in every reachable configuration, because the `disconnect()`
guard checks only `disconnecting`, and `connected` may become `true` (via the
adapter's `connect` event) while either flag is still raised. -/
theorem C3_connecting_raised_only_when_not_connected
    (s t : Sys) (h : Step s t)
    (h0 : s.state.connecting = false) (h1 : t.state.connecting = true) :
    s.state.connected = false := by
  cases h <;> simp_all [resolveWalletState_connecting]

/-- Evaluation of the amended claim C3 on the concrete slice from `sys4` to
`sys5` (the guarded `connect()` body): it raises `connecting`, and indeed
`connected = false` in `sys4`. -/
theorem C3_witness : sys4.state.connected = false :=
  C3_connecting_raised_only_when_not_connected sys4 sys5
    (Step.connectStart sys4 walletA adapterA (by decide) (by decide) (by decide)
      (by decide) (by decide) (by decide))
    (by decide) (by decide)

/-!
## Claim C4
-/

/-- Counterexample to claim C4: in `c4Store` the adapter's connect rejects;
`connect()` returns the failure to the caller, but the store pushes nothing
onto the error channel (`catchError` in `connect()` only clears the
persisted name and rethrows). -/
theorem C4_counterexample :
    (c4Store.connect).outcome = .failed (.adapterError "connect rejected") ∧
    (c4Store.connect).store.errors = [] := by
  decide

/-- Claim C4 (amended): the guard failures — not-selected and not-ready for
`connect()`, not-selected and not-connected for `sendTransaction` — are both
returned to the caller as a failed result and pushed onto the error channel;
an adapter-surfaced rejection of `adapter.connect` or
`adapter.sendTransaction` is returned to the caller but is not pushed onto
the channel by the store (channel delivery for those relies on the external
adapter's own `error` event, forwarded by the `onError` effect). -/
theorem C4_error_channel_pushes
    (st : WalletStore) (tx : Transaction) :
    ((st.connect).outcome = .failed .walletNotSelected →
        (st.connect).store.errors = st.errors ++ [.walletNotSelected]) ∧
    ((st.connect).outcome = .failed .walletNotReady →
        (st.connect).store.errors = st.errors ++ [.walletNotReady]) ∧
    (∀ msg, (st.connect).outcome = .failed (.adapterError msg) →
        (st.connect).store.errors = st.errors) ∧
    ((st.sendTransaction tx).outcome = .failed .walletNotSelected →
        (st.sendTransaction tx).store.errors = st.errors ++ [.walletNotSelected]) ∧
    ((st.sendTransaction tx).outcome = .failed .walletNotConnected →
        (st.sendTransaction tx).store.errors = st.errors ++ [.walletNotConnected]) ∧
    (∀ msg, (st.sendTransaction tx).outcome = .failed (.adapterError msg) →
        (st.sendTransaction tx).store.errors = st.errors) := by
  refine ⟨?_, ?_, ?_, ?_, ?_, ?_⟩
  · unfold WalletStore.connect
    split
    · simp
    · split
      · split
        · simp
        · split <;> simp
      · simp
  · unfold WalletStore.connect
    split
    · simp
    · split
      · split
        · simp
        · split <;> simp
      · simp
  · intro msg
    unfold WalletStore.connect
    split
    · simp
    · split
      · split
        · simp
        · split <;> simp
      · simp
  · unfold WalletStore.sendTransaction
    split
    · simp
    · split
      · simp
      · split <;> simp
  · unfold WalletStore.sendTransaction
    split
    · simp
    · split
      · simp
      · split <;> simp
  · intro msg
    unfold WalletStore.sendTransaction
    split
    · simp
    · split
      · simp
      · split <;> simp

/-- Evaluation of the amended claim C4 on `c4Store`: the rejection of the
adapter's connect leaves the error channel unchanged. -/
theorem C4_witness : (c4Store.connect).store.errors = c4Store.errors :=
  (C4_error_channel_pushes c4Store "tx").2.2.1 "connect rejected" (by decide)

/-!
## Claim C5
-/

/-- Counterexample to claim C5: `c5Store` has wallet and adapter selected
with `ready = false`, but it is already `connected`, so `connect()` is
filtered by its guard: it does not clear the persisted selection, opens no
URL, and raises no error — contradicting the claimed behavior for every
state with a selected, not-ready adapter. -/
theorem C5_counterexample :
    c5Store.state.wallet = some walletA ∧
    c5Store.state.adapter = some adapterA ∧
    c5Store.state.ready = false ∧
    (c5Store.connect).outcome = .filtered ∧
    (c5Store.connect).store.name = some "A" ∧
    (c5Store.connect).store.openedUrls = [] ∧
    (c5Store.connect).store.errors = [] := by
  decide

/-- Claim C5 (amended): for every call to `connect()` in a state where a
wallet and adapter are selected, `ready` is `false`, and `connected`,
`connecting`, `disconnecting` are all `false` (so that the guard passes),
the call clears the persisted selection, opens the wallet's URL, fails with
`WalletNotReadyError` (also pushed onto the error channel), and never sets
`connecting = true` at any point of the call. -/
theorem C5_not_ready_behavior
    (st : WalletStore) (w : Wallet) (a : Adapter)
    (hw : st.state.wallet = some w) (ha : st.state.adapter = some a)
    (hr : st.state.ready = false) (hc : st.state.connected = false)
    (hcg : st.state.connecting = false) (hd : st.state.disconnecting = false) :
    (st.connect).outcome = .failed .walletNotReady ∧
    (st.connect).store.name = none ∧
    (st.connect).store.openedUrls = st.openedUrls ++ [w.url] ∧
    (st.connect).store.errors = st.errors ++ [.walletNotReady] ∧
    (st.connect).setConnectingFlag = false := by
  unfold WalletStore.connect
  rw [hc, hcg, hd, hw, ha, hr]
  simp

/-- Evaluation of the amended claim C5 on `c5OkStore`: the not-ready call
fails with `WalletNotReadyError`, clears the name, opens the wallet URL and
never raises `connecting`. -/
theorem C5_witness :
    (c5OkStore.connect).outcome = .failed .walletNotReady ∧
    (c5OkStore.connect).store.name = none ∧
    (c5OkStore.connect).store.openedUrls = c5OkStore.openedUrls ++ ["https://a.example"] ∧
    (c5OkStore.connect).store.errors = c5OkStore.errors ++ [.walletNotReady] ∧
    (c5OkStore.connect).setConnectingFlag = false :=
  C5_not_ready_behavior c5OkStore walletA adapterA (by decide) (by decide) (by decide)
    (by decide) (by decide) (by decide)

/-!
## Claim C6
-/

/-- Claim C6: for every call to `disconnect()` while `disconnecting = false`:
with no adapter selected it clears the persisted selection, invokes no
adapter method, never raises `disconnecting`, and leaves the component-store
state and error channel untouched; with an adapter it sets
`disconnecting = true`, invokes the adapter's disconnect and — whether that
disconnect resolves or rejects — afterwards the persisted selection is
cleared and `disconnecting` is `false`. -/
theorem C6_disconnect_behavior
    (st : WalletStore) (h : st.state.disconnecting = false) :
    (st.state.adapter = none →
        (st.disconnect).store.name = none ∧
        (st.disconnect).invokedAdapterDisconnect = false ∧
        (st.disconnect).setDisconnectingFlag = false ∧
        (st.disconnect).store.state = st.state ∧
        (st.disconnect).store.errors = st.errors) ∧
    (∀ a, st.state.adapter = some a →
        (st.disconnect).setDisconnectingFlag = true ∧
        (st.disconnect).invokedAdapterDisconnect = true ∧
        (st.disconnect).store.name = none ∧
        (st.disconnect).store.state.disconnecting = false) := by
  unfold WalletStore.disconnect
  rw [h]
  constructor
  · intro ha
    rw [ha]
    simp
  · intro a ha
    rw [ha]
    cases hd : a.disconnectFails <;> simp [hd]

/-- Evaluation of claim C6 on `c6Store` (adapter selected, not
disconnecting): `disconnecting` is raised during the call, the adapter's
disconnect is invoked, the name is cleared and `disconnecting` ends
`false`. -/
theorem C6_witness :
    (c6Store.disconnect).setDisconnectingFlag = true ∧
    (c6Store.disconnect).invokedAdapterDisconnect = true ∧
    (c6Store.disconnect).store.name = none ∧
    (c6Store.disconnect).store.state.disconnecting = false :=
  (C6_disconnect_behavior c6Store (by decide)).2 adapterA (by decide)

/-!
## Claim C7
-/

/-- Claim C7: a `connect()` call made while `connecting`, `connected` or
`disconnecting` is `true` is a no-op — the emission is filtered, the
adapter's connect is not invoked, `connecting` is never raised, no error is
emitted and the store (state, persisted name, error channel, opened URLs) is
unchanged. -/
theorem C7_connect_guard_noop
    (st : WalletStore)
    (h : st.state.connecting = true ∨ st.state.connected = true ∨
      st.state.disconnecting = true) :
    st.connect =
      { outcome := .filtered
        store := st
        invokedAdapterConnect := false
        setConnectingFlag := false } := by
  unfold WalletStore.connect
  rcases h with h | h | h <;> simp [h]

/-- Evaluation of claim C7 on `c7Store` (a call arriving while
`connecting = true`): the result is the filtered no-op on the unchanged
store. -/
theorem C7_witness :
    c7Store.connect =
      { outcome := .filtered
        store := c7Store
        invokedAdapterConnect := false
        setConnectingFlag := false } :=
  C7_connect_guard_noop c7Store (Or.inl (by decide))

/-!
## Claim C8
-/

/-- Claim C8: whenever the persisted name is `null`, or is a name for which
the registry lookup finds no wallet, the `onWalletChanged` body resets the
state to `wallet = null`, `adapter = null`, `publicKey = null`,
`connected = false` and `ready = false` (the `patchState(initialState)`
branch). -/
theorem C8_unmatched_name_clears_state
    (st : WalletStore)
    (h : st.name = none ∨
      ∃ n, st.name = some n ∧ walletsByName st.state.wallets n = none) :
    (st.onWalletChanged).state.wallet = none ∧
    (st.onWalletChanged).state.adapter = none ∧
    (st.onWalletChanged).state.publicKey = none ∧
    (st.onWalletChanged).state.connected = false ∧
    (st.onWalletChanged).state.ready = false := by
  have hw : resolvedWallet st.state.wallets st.name = none :=
    resolvedWallet_eq_none st.state.wallets st.name h
  unfold WalletStore.onWalletChanged resolveWalletState
  rw [hw]
  simp [applyInitialState]

/-- Evaluation of claim C8 on `c8Store` (persisted name `Ghost`, registry
holding only wallet `A`): the resolution pipeline fully unselects. -/
theorem C8_witness :
    (c8Store.onWalletChanged).state.wallet = none ∧
    (c8Store.onWalletChanged).state.adapter = none ∧
    (c8Store.onWalletChanged).state.publicKey = none ∧
    (c8Store.onWalletChanged).state.connected = false ∧
    (c8Store.onWalletChanged).state.ready = false :=
  C8_unmatched_name_clears_state c8Store (Or.inr ⟨"Ghost", by decide, by decide⟩)

/-!
## Claim C9
-/

/-- Claim C9: `signTransaction`, `signAllTransactions` and `signMessage`
synchronously return `undefined` when the adapter is `null` or does not
declare the corresponding capability (the functions produce no observable,
touch no adapter method and raise no error — structurally, they return
nothing but the optional observable), and delegate to the `wallet.signer`
helper applied to the adapter and the current `connected` flag when the
capability is declared. -/
theorem C9_signers_capability_gated
    (st : WalletStore) (tx : Transaction) (txs : List Transaction) (m : String) :
    (st.state.adapter = none →
        st.signTransaction tx = none ∧
        st.signAllTransactions txs = none ∧
        st.signMessage m = none) ∧
    (∀ a, st.state.adapter = some a →
        (a.signTransactionResult = none → st.signTransaction tx = none) ∧
        (∀ r, a.signTransactionResult = some r →
            st.signTransaction tx = some (Signer.delegate st.state.connected r)) ∧
        (a.signAllTransactionsResult = none → st.signAllTransactions txs = none) ∧
        (∀ r, a.signAllTransactionsResult = some r →
            st.signAllTransactions txs = some (Signer.delegate st.state.connected r)) ∧
        (a.signMessageResult = none → st.signMessage m = none) ∧
        (∀ r, a.signMessageResult = some r →
            st.signMessage m = some (Signer.delegate st.state.connected r))) := by
  unfold WalletStore.signTransaction WalletStore.signAllTransactions WalletStore.signMessage
  constructor
  · intro h
    rw [h]
    exact ⟨rfl, rfl, rfl⟩
  · intro a ha
    rw [ha]
    dsimp only
    refine ⟨fun h => by rw [h], fun r h => by rw [h], fun h => by rw [h],
      fun r h => by rw [h], fun h => by rw [h], fun r h => by rw [h]⟩

/-- Evaluation of claim C9 on `c9Store`: `adapterA` declares
`signTransaction` (so the call delegates) but not `signMessage` (so the call
returns `undefined`). -/
theorem C9_witness :
    (c9Store.signTransaction "tx" =
        some (Signer.delegate c9Store.state.connected (.resolved "signed"))) ∧
    c9Store.signMessage "m" = none := by
  have h := (C9_signers_capability_gated c9Store "tx" [] "m").2 adapterA (by decide)
  exact ⟨h.2.1 (.resolved "signed") (by decide), h.2.2.2.2.1 (by decide)⟩

/-!
## Claim C10
-/

/-- Claim C10: when the resolution pipeline clears the state because the
persisted name matches no registry entry (or is `null`), only the five
fields listed in `initialState` are written; `wallets`, `connecting`,
`disconnecting` and `autoConnect` keep their previous values. -/
theorem C10_clearing_frame
    (st : WalletStore)
    (_h : st.name = none ∨
      ∃ n, st.name = some n ∧ walletsByName st.state.wallets n = none) :
    (st.onWalletChanged).state.wallets = st.state.wallets ∧
    (st.onWalletChanged).state.connecting = st.state.connecting ∧
    (st.onWalletChanged).state.disconnecting = st.state.disconnecting ∧
    (st.onWalletChanged).state.autoConnect = st.state.autoConnect := by
  unfold WalletStore.onWalletChanged
  exact ⟨resolveWalletState_wallets st.state st.name,
    resolveWalletState_connecting st.state st.name,
    resolveWalletState_disconnecting st.state st.name,
    resolveWalletState_autoConnect st.state st.name⟩

/-- Evaluation of claim C10 on `c8Store` (whose `connecting` and
`autoConnect` are `true`): the clearing leaves `wallets`, `connecting`,
`disconnecting` and `autoConnect` untouched. -/
theorem C10_witness :
    (c8Store.onWalletChanged).state.wallets = c8Store.state.wallets ∧
    (c8Store.onWalletChanged).state.connecting = c8Store.state.connecting ∧
    (c8Store.onWalletChanged).state.disconnecting = c8Store.state.disconnecting ∧
    (c8Store.onWalletChanged).state.autoConnect = c8Store.state.autoConnect :=
  C10_clearing_frame c8Store (Or.inr ⟨"Ghost", by decide, by decide⟩)

end WalletAdapter
